import Mathlib

/-!
Verification of the webhook processor dispatch layer of the notion-server
repository.  The definitions below are shallow embeddings of:
  - the event data model (src/types/webhook-events.ts),
  - the processor interface (src/types/webhook.ts),
  - the predicate utilities (normalizeNotionId, isPageEvent,
    extractDatabaseIdFromPayload, isPageEventFromDatabase),
  - the registry filter getProcessorsToExecute (src/utilities/processorLoader.ts),
  - the dispatcher handleWebhookPayload
    (src/routes/webhook-integration/webhookIntegration.ts).
-/

namespace NotionServer

/-- Author of a webhook event (WebhookAuthor in src/types/webhook-events.ts).
The `type` field holds one of "person", "bot", "agent". -/
structure WebhookAuthor where
  id : String
  type : String
deriving DecidableEq, Repr

/-- Entity that triggered the webhook event (WebhookEntity).
The `type` field holds one of "page", "block", "database", "data_source",
"comment". -/
structure WebhookEntity where
  id : String
  type : String
deriving DecidableEq, Repr

/-- Parent reference in webhook event data (WebhookParent).
The `type` field holds one of "page", "database", "block", "space",
"data_source". -/
structure WebhookParent where
  id : String
  type : String
deriving DecidableEq, Repr

/-- The `data` field of a webhook event; the dispatch layer only reads its
optional `parent` reference (`payload.data?.parent` in the source). -/
structure WebhookData where
  parent : Option WebhookParent
deriving DecidableEq, Repr

/-- A webhook event envelope (NotionWebhookEvent).  Fields accessed with
optional chaining in the source (`entity?`, `data?`, `authors` guarded by a
null check) are embedded as `Option`. -/
structure NotionWebhookEvent where
  id : String
  type : String
  entity : Option WebhookEntity
  authors : Option (List WebhookAuthor)
  data : Option WebhookData
deriving DecidableEq, Repr

/-- The `boolean | ((payload) => boolean)` union used by the `isEnabled` and
`shouldExecute` fields of IWebhookProcessor (src/types/webhook.ts). -/
inductive BoolOrPred where
  | const : Bool → BoolOrPred
  | pred : (NotionWebhookEvent → Bool) → BoolOrPred

/-- Evaluation of a `boolean | function` field, mirroring the runtime check
`typeof x === "function" ? x(payload) : x` in processorLoader.ts. -/
def BoolOrPred.eval (b : BoolOrPred) (payload : NotionWebhookEvent) : Bool :=
  match b with
  | .const v => v
  | .pred f => f payload

/-- Processor definition (IWebhookProcessor in src/types/webhook.ts).  The
executor is an async function returning a boolean promise that may reject;
embedded as `Except String Bool` where `.error` is a rejection. -/
structure IWebhookProcessor where
  id : String
  name : String
  isEnabled : BoolOrPred
  shouldExecute : BoolOrPred
  executor : NotionWebhookEvent → Except String Bool

/-- The filter callback of getProcessorsToExecute
(src/utilities/processorLoader.ts lines 21-55), hoisted to a named
definition: check `isEnabled` first and return false without touching
`shouldExecute` when it is false, then check `shouldExecute`. -/
def processorMatches (processor : IWebhookProcessor)
    (payload : NotionWebhookEvent) : Bool :=
  let enabled := processor.isEnabled.eval payload
  if !enabled then false
  else
    let se := processor.shouldExecute.eval payload
    if !se then false
    else true

/-- getProcessorsToExecute (src/utilities/processorLoader.ts): filters the
registry with the callback above.  The registry is a parameter here; in the
source it is the module constant `allProcessors` (src/processors/index.ts). -/
def getProcessorsToExecute (allProcessors : List IWebhookProcessor)
    (payload : NotionWebhookEvent) : List IWebhookProcessor :=
  allProcessors.filter (fun processor => processorMatches processor payload)

/-- The dispatch argument as received at runtime: the source checks
`!payload || typeof payload !== "object"` before using it, so the embedding
distinguishes null, a non-object primitive, and a well-formed envelope. -/
inductive WebhookPayload where
  | nullPayload : WebhookPayload
  | nonObject : String → WebhookPayload
  | object : NotionWebhookEvent → WebhookPayload

/-- The summary returned by handleWebhookPayload.  `objectType` comes from
`webhookPayload.entity?.type`, hence the `Option`. -/
structure DispatchResult where
  eventType : Option String
  objectType : Option String
  processed : Bool
  processorsExecuted : Nat
deriving DecidableEq, Repr

/-- handleWebhookPayload
(src/routes/webhook-integration/webhookIntegration.ts lines 90-155):
throws for a null or non-object payload; otherwise filters the registry,
runs every matched executor with a per-task try/catch mapping a rejection
to `success = false`, counts the results whose success flag is true, and
returns the summary.  A thrown error in the source is `Except.error` here;
the sequential `map` stands for the `Promise.allSettled` fan-out, whose
aggregate is order-insensitive. -/
def handleWebhookPayload (allProcessors : List IWebhookProcessor)
    (payload : WebhookPayload) : Except String DispatchResult :=
  match payload with
  | .nullPayload => .error "Invalid payload: expected an object"
  | .nonObject _ => .error "Invalid payload: expected an object"
  | .object webhookPayload =>
    let processorsToExecute := getProcessorsToExecute allProcessors webhookPayload
    let executionResults := processorsToExecute.map (fun processor =>
      match processor.executor webhookPayload with
      | .ok success => (processor.name, success)
      | .error _ => (processor.name, false))
    let successfulExecutions :=
      (executionResults.filter (fun result => result.2 == true)).length
    .ok {
      eventType := some webhookPayload.type
      objectType := webhookPayload.entity.map (fun ent => ent.type)
      processed := decide (successfulExecutions > 0)
      processorsExecuted := successfulExecutions
    }

/-- normalizeNotionId (src/unnamed/part_006 lines 14-16): a global regex
replace of every dash with the empty string, then toLowerCase; embedded on
the character list of the string. -/
def normalizeNotionId (id : String) : String :=
  ⟨(id.data.filter (fun c => c != '-')).map Char.toLower⟩

/-- Embedding of the JS string method startsWith as a character-list
test: `strStartsWith s p` is true when `p.data` is an initial segment of
`s.data`. -/
def strStartsWith (s p : String) : Bool :=
  p.data.isPrefixOf s.data

/-- isPageEvent (src/unnamed/part_006 lines 50-58): the type string starts
with "page." and `payload.entity?.type === "page"`. -/
def isPageEvent (payload : NotionWebhookEvent) : Bool :=
  if !(strStartsWith payload.type "page.") then false
  else
    match payload.entity with
    | some ent => ent.type == "page"
    | none => false

/-- extractDatabaseIdFromPayload (src/unnamed/part_006 lines 80-95): reads
`payload.data?.parent` and returns its id only when the parent type is
"database" or "data_source". -/
def extractDatabaseIdFromPayload (payload : NotionWebhookEvent) :
    Option String :=
  match payload.data.bind (fun d => d.parent) with
  | none => none
  | some parent =>
    if parent.type == "database" || parent.type == "data_source" then
      some parent.id
    else none

/-- isPageEventFromDatabase (src/unnamed/part_006 lines 104-130): page
event, parent present with a database-like type, and normalized parent id
equal to the normalized target id. -/
def isPageEventFromDatabase (payload : NotionWebhookEvent)
    (targetDatabaseId : String) : Bool :=
  if !isPageEvent payload then false
  else
    match payload.data.bind (fun d => d.parent) with
    | none => false
    | some parent =>
      if !(parent.type == "database" || parent.type == "data_source") then
        false
      else
        normalizeNotionId parent.id == normalizeNotionId targetDatabaseId

/-- Instrumented variant of the filter callback of getProcessorsToExecute:
same branching as processorMatches, and the second component counts how
many times the shouldExecute field is evaluated (the spy counter of the
spec). -/
def processorMatchesCounting (processor : IWebhookProcessor)
    (payload : NotionWebhookEvent) : Bool × Nat :=
  let enabled := processor.isEnabled.eval payload
  if !enabled then (false, 0)
  else
    let se := processor.shouldExecute.eval payload
    (if !se then false else true, 1)

/-- Concrete sample envelope: a page.created event for a page whose parent
is the database "ABC-123". -/
def sampleEvent : NotionWebhookEvent :=
  { id := "evt-1"
    type := "page.created"
    entity := some { id := "pg-1", type := "page" }
    authors := some [{ id := "user-1", type := "person" }]
    data := some { parent := some { id := "ABC-123", type := "database" } } }

/-- Concrete sample processor that is enabled and matches sampleEvent. -/
def sampleEnabled : IWebhookProcessor :=
  { id := "11111111-1111-1111-1111-111111111111"
    name := "sample enabled processor"
    isEnabled := .const true
    shouldExecute := .pred (fun p => isPageEventFromDatabase p "abc123")
    executor := fun _ => .ok true }

/-- Concrete sample processor whose kill-switch is off. -/
def sampleDisabled : IWebhookProcessor :=
  { id := "22222222-2222-2222-2222-222222222222"
    name := "sample disabled processor"
    isEnabled := .const false
    shouldExecute := .const true
    executor := fun _ => .error "boom" }

/-! ### Helper lemmas about Char.toLower and normalizeNotionId -/

/-- Characters obtained by lowercasing an ASCII uppercase letter are fixed
by a second application of Char.toLower. -/
theorem char_ofNat_add32_toLower_fixed :
    ∀ n : Nat, 65 ≤ n → n ≤ 90 →
      Char.toLower (Char.ofNat (n + 32)) = Char.ofNat (n + 32) := by
  intro n h1 h2
  interval_cases n <;> decide

/-- Lowercasing an ASCII uppercase letter never yields a dash. -/
theorem char_ofNat_add32_ne_dash :
    ∀ n : Nat, 65 ≤ n → n ≤ 90 → Char.ofNat (n + 32) ≠ '-' := by
  intro n h1 h2
  interval_cases n <;> decide

/-- Unfolding equation for Char.toLower. -/
theorem char_toLower_eq (c : Char) :
    Char.toLower c =
      if c.toNat ≥ 65 ∧ c.toNat ≤ 90 then Char.ofNat (c.toNat + 32) else c :=
  rfl

/-- Char.toLower is idempotent. -/
theorem char_toLower_toLower (c : Char) :
    Char.toLower (Char.toLower c) = Char.toLower c := by
  rw [char_toLower_eq c]
  by_cases h : c.toNat ≥ 65 ∧ c.toNat ≤ 90
  · rw [if_pos h]
    exact char_ofNat_add32_toLower_fixed c.toNat h.1 h.2
  · rw [if_neg h, char_toLower_eq c, if_neg h]

/-- Char.toLower maps non-dash characters to non-dash characters. -/
theorem char_toLower_ne_dash (c : Char) (h : c ≠ '-') :
    Char.toLower c ≠ '-' := by
  rw [char_toLower_eq c]
  by_cases hu : c.toNat ≥ 65 ∧ c.toNat ≤ 90
  · rw [if_pos hu]
    exact char_ofNat_add32_ne_dash c.toNat hu.1 hu.2
  · rw [if_neg hu]
    exact h

/-- The character list of a normalized id. -/
theorem normalizeNotionId_data (x : String) :
    (normalizeNotionId x).data
      = (x.data.filter (fun c => c != '-')).map Char.toLower :=
  rfl

/-- normalizeNotionId is idempotent (helper form, shared by claims). -/
theorem normalizeNotionId_idem (x : String) :
    normalizeNotionId (normalizeNotionId x) = normalizeNotionId x := by
  show String.mk _ = String.mk _
  apply congrArg String.mk
  rw [normalizeNotionId_data]
  have hfix :
      (((x.data.filter fun c => c != '-')).map Char.toLower).filter
          (fun c => c != '-')
        = ((x.data.filter fun c => c != '-')).map Char.toLower := by
    apply List.filter_eq_self.mpr
    intro a ha
    obtain ⟨c, hc, rfl⟩ := List.mem_map.mp ha
    have hcp := (List.mem_filter.mp hc).2
    simp only [bne_iff_ne] at hcp ⊢
    exact char_toLower_ne_dash c hcp
  rw [hfix, List.map_map]
  exact congrArg (fun f => List.map f (x.data.filter fun c => c != '-'))
    (funext char_toLower_toLower)

/-- C7: normalizeNotionId is idempotent, and it identifies dash and case
variants of the same identifier: both sample spellings normalize to
"2f4dcaada6d6". -/
theorem claim_C7_normalizeNotionId_idempotent_and_variants :
    (∀ x : String,
      normalizeNotionId (normalizeNotionId x) = normalizeNotionId x) ∧
    normalizeNotionId "2f4d-caad-a6d6" = normalizeNotionId "2F4DCAADA6D6" ∧
    normalizeNotionId "2F4DCAADA6D6" = "2f4dcaada6d6" := by
  refine ⟨normalizeNotionId_idem, by decide, by decide⟩

/-! ### Helper lemmas about the dispatcher -/

/-- The filter callback passes exactly when both union fields evaluate
true. -/
theorem processorMatches_iff (p : IWebhookProcessor)
    (e : NotionWebhookEvent) :
    processorMatches p e = true ↔
      p.isEnabled.eval e = true ∧ p.shouldExecute.eval e = true := by
  cases h1 : p.isEnabled.eval e <;> cases h2 : p.shouldExecute.eval e <;>
    simp [processorMatches, h1, h2]

/-- Replacing the executor of a processor does not change whether it
matches. -/
theorem processorMatches_update_executor (p : IWebhookProcessor)
    (f : NotionWebhookEvent → Except String Bool) (e : NotionWebhookEvent) :
    processorMatches { p with executor := f } e = processorMatches p e :=
  rfl

/-- Replacing the shouldExecute field of a disabled processor does not
change whether it matches: it does not match either way. -/
theorem processorMatches_disabled (p : IWebhookProcessor)
    (e : NotionWebhookEvent) (h : p.isEnabled.eval e = false) :
    processorMatches p e = false := by
  simp [processorMatches, h]

/-- The instrumented callback agrees with processorMatches on the match
decision. -/
theorem processorMatchesCounting_fst (p : IWebhookProcessor)
    (e : NotionWebhookEvent) :
    (processorMatchesCounting p e).1 = processorMatches p e := by
  cases h1 : p.isEnabled.eval e <;>
    simp [processorMatchesCounting, processorMatches, h1]

/-- The object branch of handleWebhookPayload only depends on the registry
through the matched list. -/
theorem handleWebhookPayload_congr (R1 R2 : List IWebhookProcessor)
    (e : NotionWebhookEvent)
    (h : getProcessorsToExecute R1 e = getProcessorsToExecute R2 e) :
    handleWebhookPayload R1 (.object e) = handleWebhookPayload R2 (.object e) := by
  simp only [handleWebhookPayload, h]

/-- C1: for every envelope and registry, membership in the selected list is
exactly registration plus both union fields evaluating true (a constant
evaluates to itself, a predicate is applied to the envelope), and dispatch
never invokes the executor of an unmatched processor: replacing such an
executor with any function leaves the dispatch result unchanged. -/
theorem claim_C1_matched_set_exact (e : NotionWebhookEvent) :
    (∀ (R : List IWebhookProcessor) (p : IWebhookProcessor),
      p ∈ getProcessorsToExecute R e ↔
        p ∈ R ∧ p.isEnabled.eval e = true ∧ p.shouldExecute.eval e = true) ∧
    (∀ (pre post : List IWebhookProcessor) (p : IWebhookProcessor)
      (f : NotionWebhookEvent → Except String Bool),
      processorMatches p e = false →
        handleWebhookPayload (pre ++ p :: post) (.object e)
          = handleWebhookPayload (pre ++ { p with executor := f } :: post)
              (.object e)) := by
  constructor
  · intro R p
    rw [getProcessorsToExecute, List.mem_filter, processorMatches_iff]
  · intro pre post p f h
    have h2 : processorMatches { p with executor := f } e = false := by
      rw [processorMatches_update_executor]; exact h
    apply handleWebhookPayload_congr
    simp [getProcessorsToExecute, List.filter_append, List.filter_cons, h, h2]

/-- Concrete instance of the C1 theorem: a disabled processor keeps the
dispatch result unchanged when its executor is replaced. -/
theorem claim_C1_witness :
    handleWebhookPayload [sampleDisabled] (.object sampleEvent)
      = handleWebhookPayload
          [{ sampleDisabled with executor := fun _ => .ok true }]
          (.object sampleEvent) :=
  (claim_C1_matched_set_exact sampleEvent).2 [] [] sampleDisabled
    (fun _ => .ok true) (by decide)

/-- C4: dispatch throws exactly for a payload that is not a well-formed
object: every object payload yields a summary, and every null or
non-object payload yields the invalid-payload error, for every registry
(so the registry is never consulted on the error path). -/
theorem claim_C4_invalid_payload (R : List IWebhookProcessor)
    (payload : WebhookPayload) :
    ((∃ e, payload = WebhookPayload.object e) →
      ∃ r, handleWebhookPayload R payload = .ok r) ∧
    ((∀ e, payload ≠ WebhookPayload.object e) →
      handleWebhookPayload R payload
        = .error "Invalid payload: expected an object") := by
  cases payload with
  | nullPayload =>
    refine ⟨?_, fun _ => rfl⟩
    rintro ⟨e, he⟩
    cases he
  | nonObject s =>
    refine ⟨?_, fun _ => rfl⟩
    rintro ⟨e, he⟩
    cases he
  | object e =>
    refine ⟨fun _ => ⟨_, rfl⟩, fun h => absurd rfl (h e)⟩

/-- Concrete instance of the C4 theorem: dispatching null raises the
invalid-payload error. -/
theorem claim_C4_witness :
    handleWebhookPayload [sampleEnabled] WebhookPayload.nullPayload
      = .error "Invalid payload: expected an object" :=
  (claim_C4_invalid_payload [sampleEnabled] WebhookPayload.nullPayload).2
    (fun _ h => WebhookPayload.noConfusion h)

/-- C6: when isEnabled evaluates false the shouldExecute field is never
consulted: replacing it with any other value leaves the selected list
unchanged, the processor does not match, and the instrumented callback
records zero shouldExecute evaluations. -/
theorem claim_C6_disabled_skips_shouldExecute
    (pre post : List IWebhookProcessor) (p : IWebhookProcessor)
    (f : BoolOrPred) (e : NotionWebhookEvent)
    (h : p.isEnabled.eval e = false) :
    getProcessorsToExecute (pre ++ p :: post) e
      = getProcessorsToExecute (pre ++ { p with shouldExecute := f } :: post) e ∧
    processorMatches p e = false ∧
    (processorMatchesCounting p e).2 = 0 := by
  have h1 : processorMatches p e = false := processorMatches_disabled p e h
  have h2 : processorMatches { p with shouldExecute := f } e = false :=
    processorMatches_disabled _ e h
  refine ⟨?_, h1, ?_⟩
  · simp [getProcessorsToExecute, List.filter_append, List.filter_cons, h1, h2]
  · simp [processorMatchesCounting, h]

/-- Concrete instance of the C6 theorem on the sample disabled
processor. -/
theorem claim_C6_witness :
    getProcessorsToExecute [sampleDisabled] sampleEvent
      = getProcessorsToExecute
          [{ sampleDisabled with shouldExecute := BoolOrPred.const true }]
          sampleEvent ∧
    processorMatches sampleDisabled sampleEvent = false ∧
    (processorMatchesCounting sampleDisabled sampleEvent).2 = 0 :=
  claim_C6_disabled_skips_shouldExecute [] [] sampleDisabled
    (BoolOrPred.const true) sampleEvent rfl

/-- C2: a rejecting executor is settled to the same outcome as one that
returns false, so dispatch still returns a summary, the failing processor
contributes nothing to processorsExecuted, and every other outcome is
unchanged. -/
theorem claim_C2_executor_rejection_isolated (pre post : List IWebhookProcessor)
    (p : IWebhookProcessor) (msg : String) (e : NotionWebhookEvent) :
    handleWebhookPayload
        (pre ++ { p with executor := fun _ => .error msg } :: post) (.object e)
      = handleWebhookPayload
        (pre ++ { p with executor := fun _ => .ok false } :: post) (.object e) ∧
    ∃ r, handleWebhookPayload
        (pre ++ { p with executor := fun _ => .error msg } :: post) (.object e)
      = .ok r := by
  refine ⟨?_, ⟨_, rfl⟩⟩
  cases hm : processorMatches p e with
  | false =>
    apply handleWebhookPayload_congr
    simp [getProcessorsToExecute, List.filter_append, List.filter_cons,
      processorMatches_update_executor, hm]
  | true =>
    simp [handleWebhookPayload, getProcessorsToExecute, List.filter_append,
      List.filter_cons, processorMatches_update_executor, hm,
      List.map_append, List.map_cons]

/-- The number of settled results carrying a true success flag equals the
number of processors whose executor returned true. -/
theorem successCount_eq (A : List IWebhookProcessor) (e : NotionWebhookEvent) :
    ((A.map (fun processor =>
        match processor.executor e with
        | .ok success => (processor.name, success)
        | .error _ => (processor.name, false))).filter
      (fun result => result.2 == true)).length
    = (A.filter (fun q => match q.executor e with
        | .ok true => true
        | _ => false)).length := by
  rw [List.filter_map, List.length_map]
  apply congrArg List.length
  apply List.filter_congr
  intro x hx
  cases hx2 : x.executor e with
  | ok b => cases b <;> simp [Function.comp, hx2]
  | error err => simp [Function.comp, hx2]

/-- C3: for every object payload the summary counts exactly the matched
executors that returned true, processed is the flag of a positive count,
and the event and object types are read from the envelope. -/
theorem claim_C3_summary_fields (R : List IWebhookProcessor)
    (e : NotionWebhookEvent) :
    ∃ r : DispatchResult,
      handleWebhookPayload R (.object e) = .ok r ∧
      r.processorsExecuted
        = ((getProcessorsToExecute R e).filter
            (fun q => match q.executor e with
              | .ok true => true
              | _ => false)).length ∧
      (r.processed = true ↔ 0 < r.processorsExecuted) ∧
      r.eventType = some e.type ∧
      r.objectType = e.entity.map (fun ent => ent.type) := by
  refine ⟨_, rfl, ?_, ?_, rfl, rfl⟩
  · exact successCount_eq (getProcessorsToExecute R e) e
  · simp

/-- C5: permutation invariance of dispatch: permuted registries select
permuted matched lists and produce identical summaries. -/
theorem claim_C5_order_invariance (R1 R2 : List IWebhookProcessor)
    (e : NotionWebhookEvent) (h : R1.Perm R2) :
    (getProcessorsToExecute R1 e).Perm (getProcessorsToExecute R2 e) ∧
    handleWebhookPayload R1 (.object e) = handleWebhookPayload R2 (.object e) := by
  have hm : (getProcessorsToExecute R1 e).Perm (getProcessorsToExecute R2 e) :=
    h.filter _
  refine ⟨hm, ?_⟩
  have hc :
      (((getProcessorsToExecute R1 e).map (fun processor =>
        match processor.executor e with
        | .ok success => (processor.name, success)
        | .error _ => (processor.name, false))).filter
          (fun result => result.2 == true)).length
      = (((getProcessorsToExecute R2 e).map (fun processor =>
        match processor.executor e with
        | .ok success => (processor.name, success)
        | .error _ => (processor.name, false))).filter
          (fun result => result.2 == true)).length :=
    ((hm.map _).filter _).length_eq
  simp only [handleWebhookPayload, hc]

/-- Concrete instance of the C5 theorem: swapping the two sample
processors changes neither the matched list (up to permutation) nor the
summary. -/
theorem claim_C5_witness :
    (getProcessorsToExecute [sampleEnabled, sampleDisabled] sampleEvent).Perm
        (getProcessorsToExecute [sampleDisabled, sampleEnabled] sampleEvent) ∧
    handleWebhookPayload [sampleEnabled, sampleDisabled] (.object sampleEvent)
      = handleWebhookPayload [sampleDisabled, sampleEnabled]
          (.object sampleEvent) :=
  claim_C5_order_invariance _ _ sampleEvent
    (List.Perm.swap sampleDisabled sampleEnabled [])

/-- C8: isPageEventFromDatabase holds exactly when the event type has the
"page." namespace, the entity is present with type page, the data carries
a parent of database-like type, and the normalized parent id equals the
normalized target; every missing field yields false. -/
theorem claim_C8_isPageEventFromDatabase_iff (e : NotionWebhookEvent)
    (target : String) :
    isPageEventFromDatabase e target = true ↔
      (strStartsWith e.type "page." = true ∧
       (∃ ent, e.entity = some ent ∧ ent.type = "page") ∧
       (∃ d parent, e.data = some d ∧ d.parent = some parent ∧
         (parent.type = "database" ∨ parent.type = "data_source") ∧
         normalizeNotionId parent.id = normalizeNotionId target)) := by
  cases hsw : strStartsWith e.type "page." with
  | false =>
    simp [isPageEventFromDatabase, isPageEvent, hsw]
  | true =>
    cases hent : e.entity with
    | none =>
      simp [isPageEventFromDatabase, isPageEvent, hsw, hent]
    | some ent =>
      cases hdata : e.data with
      | none =>
        simp [isPageEventFromDatabase, isPageEvent, hsw, hent, hdata]
      | some d =>
        cases hpar : d.parent with
        | none =>
          simp [isPageEventFromDatabase, isPageEvent, hsw, hent, hdata, hpar]
        | some parent =>
          simp [isPageEventFromDatabase, isPageEvent, hsw, hent, hdata, hpar,
            beq_iff_eq]

/-- C9: the selected list is an order-preserving sublist of the registry,
and any processor class contained in the matched class keeps its exact
multiplicity. -/
theorem claim_C9_matched_sublist_and_multiplicity
    (R : List IWebhookProcessor) (e : NotionWebhookEvent) :
    (getProcessorsToExecute R e).Sublist R ∧
    ∀ φ : IWebhookProcessor → Bool,
      (∀ q ∈ R, φ q = true → processorMatches q e = true) →
      (getProcessorsToExecute R e).countP φ = R.countP φ := by
  constructor
  · exact List.filter_sublist R
  · intro φ hφ
    rw [getProcessorsToExecute, List.countP_filter]
    apply List.countP_congr
    intro x hx
    constructor
    · intro hb
      rw [Bool.and_eq_true] at hb
      exact hb.1
    · intro hb
      rw [Bool.and_eq_true]
      exact ⟨hb, hφ x hx hb⟩

/-- Concrete instance of the C9 theorem on a two-processor registry, with
the matched class itself as the counted class. -/
theorem claim_C9_witness :
    (getProcessorsToExecute [sampleEnabled, sampleDisabled]
        sampleEvent).Sublist [sampleEnabled, sampleDisabled] ∧
    (getProcessorsToExecute [sampleEnabled, sampleDisabled]
        sampleEvent).countP (fun q => processorMatches q sampleEvent)
      = ([sampleEnabled, sampleDisabled] : List IWebhookProcessor).countP
          (fun q => processorMatches q sampleEvent) :=
  ⟨(claim_C9_matched_sublist_and_multiplicity
      [sampleEnabled, sampleDisabled] sampleEvent).1,
   (claim_C9_matched_sublist_and_multiplicity
      [sampleEnabled, sampleDisabled] sampleEvent).2
     (fun q => processorMatches q sampleEvent) (fun _ _ h => h)⟩

/-- C10: whenever isPageEventFromDatabase accepts a target id, the parent
id extractor returns a defined id with the same normalization as the
target. -/
theorem claim_C10_extract_agrees (e : NotionWebhookEvent) (x : String)
    (h : isPageEventFromDatabase e x = true) :
    (extractDatabaseIdFromPayload e).map normalizeNotionId
      = some (normalizeNotionId x) := by
  cases hpe : isPageEvent e with
  | false => simp [isPageEventFromDatabase, hpe] at h
  | true =>
    cases hp : e.data.bind (fun d => d.parent) with
    | none => simp [isPageEventFromDatabase, hpe, hp] at h
    | some parent =>
      cases hpt : (parent.type == "database" || parent.type == "data_source") with
      | false => simp [isPageEventFromDatabase, hpe, hp, hpt] at h
      | true =>
        simp [isPageEventFromDatabase, hpe, hp, hpt] at h
        simp [extractDatabaseIdFromPayload, hp, hpt, h]

/-- Concrete instance of the C2 theorem: a rejecting executor on the
sample registry yields the same summary as one returning false. -/
theorem claim_C2_witness :
    handleWebhookPayload
        [{ sampleEnabled with executor := fun _ => .error "boom" }]
        (.object sampleEvent)
      = handleWebhookPayload
        [{ sampleEnabled with executor := fun _ => .ok false }]
        (.object sampleEvent) ∧
    ∃ r, handleWebhookPayload
        [{ sampleEnabled with executor := fun _ => .error "boom" }]
        (.object sampleEvent) = .ok r :=
  claim_C2_executor_rejection_isolated [] [] sampleEnabled "boom" sampleEvent

/-- Concrete instance of the C3 theorem on a two-processor registry. -/
theorem claim_C3_witness :
    ∃ r : DispatchResult,
      handleWebhookPayload [sampleEnabled, sampleDisabled]
          (.object sampleEvent) = .ok r ∧
      r.processorsExecuted
        = ((getProcessorsToExecute [sampleEnabled, sampleDisabled]
              sampleEvent).filter
            (fun q => match q.executor sampleEvent with
              | .ok true => true
              | _ => false)).length ∧
      (r.processed = true ↔ 0 < r.processorsExecuted) ∧
      r.eventType = some sampleEvent.type ∧
      r.objectType = sampleEvent.entity.map (fun ent => ent.type) :=
  claim_C3_summary_fields [sampleEnabled, sampleDisabled] sampleEvent

/-- Concrete instance of the C7 theorem: idempotence on a mixed-case
dashed identifier. -/
theorem claim_C7_witness :
    normalizeNotionId (normalizeNotionId "2F4D-caad")
      = normalizeNotionId "2F4D-caad" :=
  claim_C7_normalizeNotionId_idempotent_and_variants.1 "2F4D-caad"

/-- Concrete instance of the C8 theorem: the sample event satisfies the
unfolded characterization for target "abc123". -/
theorem claim_C8_witness :
    strStartsWith sampleEvent.type "page." = true ∧
    (∃ ent, sampleEvent.entity = some ent ∧ ent.type = "page") ∧
    (∃ d parent, sampleEvent.data = some d ∧ d.parent = some parent ∧
      (parent.type = "database" ∨ parent.type = "data_source") ∧
      normalizeNotionId parent.id = normalizeNotionId "abc123") :=
  (claim_C8_isPageEventFromDatabase_iff sampleEvent "abc123").mp (by decide)

/-- Concrete instance of the C10 theorem on the sample page.created
event. -/
theorem claim_C10_witness :
    (extractDatabaseIdFromPayload sampleEvent).map normalizeNotionId
      = some (normalizeNotionId "abc123") :=
  claim_C10_extract_agrees sampleEvent "abc123" (by decide)

end NotionServer
